import Mathlib

/-!
Shallow embedding of the data-transfer engine of the TI DaVinci SPI master
controller driver (drivers/spi/davinci_spi.c), together with theorems that
settle the specification claims about it.

Machine integers are modelled as `Nat` with explicit `% 2^32` where 32-bit
wraparound matters.  Memory-mapped registers are modelled as explicit state
(per-chip-select format registers as a `Nat → Nat` map); hardware reads that
the code busy-waits on are supplied by an oracle.
-/

namespace DavinciSpi

/-! ### Linux errno constants

These come from the kernel's errno headers (not part of this source tree);
the values are the standard Linux ones.  The driver returns the negated
constant. -/

def EINVAL : Nat := 22

def EAGAIN : Nat := 11

def ENOMEM : Nat := 12

def Eio : Nat := 5

def EBUSY : Nat := 16

def ETIMEDOUT : Nat := 110

/-- Modelled from the spec: `SPI_VERSION_2` is defined in the platform header
`mach/spi.h`, which is not part of the source tree.  The spec distinguishes
"version 2" hardware; versions are small consecutive integers, version 2
being the second. -/
def SPI_VERSION_2 : Nat := 2

/-- Modelled from the spec: the `SPIFLG_*_MASK` bit positions are defined in
`davinci_spi.h`, which is not part of the source tree.  The spec names eight
distinct hardware-flagged conditions carried by the status/flag register, so
a status snapshot is modelled at flag granularity: one Boolean per flag,
field `f` standing for `int_status & SPIFLG_f_MASK != 0`. -/
structure SpiFlg where
  timeout : Bool
  desync : Bool
  biterr : Bool
  dlen_err : Bool
  parerr : Bool
  ovrrun : Bool
  tx_intr : Bool
  buf_init_active : Bool
deriving DecidableEq, Repr

def flgNone : SpiFlg := ⟨false, false, false, false, false, false, false, false⟩

def flgTimeoutOnly : SpiFlg := ⟨true, false, false, false, false, false, false, false⟩

def flgDesyncOnly : SpiFlg := ⟨false, true, false, false, false, false, false, false⟩

def flgBiterrOnly : SpiFlg := ⟨false, false, true, false, false, false, false, false⟩

def flgDlenOnly : SpiFlg := ⟨false, false, false, true, false, false, false, false⟩

def flgParerrOnly : SpiFlg := ⟨false, false, false, false, true, false, false, false⟩

def flgOvrrunOnly : SpiFlg := ⟨false, false, false, false, false, true, false, false⟩

def flgTxIntrOnly : SpiFlg := ⟨false, false, false, false, false, false, true, false⟩

def flgBufInitOnly : SpiFlg := ⟨false, false, false, false, false, false, false, true⟩

/-- Status snapshot with both the bit-error and receive-overrun flags set. -/
def flgBiterrOvrrun : SpiFlg := ⟨false, false, true, false, false, true, false, false⟩

/-- Which branch of `davinci_spi_check_error` fires.  Each constructor
corresponds to one `dev_dbg` diagnostic branch of the source (lines
500-533); `ok` is the fall-through `return 0`. -/
inductive CheckOutcome where
  | timeout
  | desync
  | biterr
  | dlenErr
  | parErr
  | ovrRun
  | txIntr
  | bufInit
  | ok
deriving DecidableEq, Repr

/-- Classification part of `davinci_spi_check_error` (source lines 495-537):
which branch of the if-chain fires.  The branches from the data-length-error
check onwards are guarded by `davinci_spi->version > SPI_VERSION_2`. -/
def davinci_spi_check_class (version : Nat) (s : SpiFlg) : CheckOutcome :=
  if s.timeout then .timeout
  else if s.desync then .desync
  else if s.biterr then .biterr
  else if SPI_VERSION_2 < version then
    if s.dlen_err then .dlenErr
    else if s.parerr then .parErr
    else if s.ovrrun then .ovrRun
    else if s.tx_intr then .txIntr
    else if s.buf_init_active then .bufInit
    else .ok
  else .ok

/-- Return code each branch of `davinci_spi_check_error` produces (source
lines 500-536). -/
def checkOutcomeCode : CheckOutcome → Int
  | .timeout => -(ETIMEDOUT : Int)
  | .desync => -(Eio : Int)
  | .biterr => -(Eio : Int)
  | .dlenErr => -(Eio : Int)
  | .parErr => -(Eio : Int)
  | .ovrRun => -(Eio : Int)
  | .txIntr => -(Eio : Int)
  | .bufInit => -(EBUSY : Int)
  | .ok => 0

/-- `davinci_spi_check_error` (source lines 495-537): the integer result the
caller sees.  The if-chain structure is `davinci_spi_check_class`; each
branch returns the code in `checkOutcomeCode`. -/
def davinci_spi_check_error (version : Nat) (s : SpiFlg) : Int :=
  checkOutcomeCode (davinci_spi_check_class version s)

/-- Spec-side classifier (spec section 4.8, for comparison with the source's
`davinci_spi_check_class`): first matching flag in the fixed priority order
timeout, desynchronization, bit error, data-length error, parity error,
receive overrun, stale transmit interrupt, buffer-init-active, with no
condition on the controller version. -/
def specPriorityClass (s : SpiFlg) : CheckOutcome :=
  if s.timeout then .timeout
  else if s.desync then .desync
  else if s.biterr then .biterr
  else if s.dlen_err then .dlenErr
  else if s.parerr then .parErr
  else if s.ovrrun then .ovrRun
  else if s.tx_intr then .txIntr
  else if s.buf_init_active then .bufInit
  else .ok

/-! ### Register access layer (source lines 77-101)

Registers hold 32-bit values; `iowrite32` truncates to 32 bits.  `set_io_bits`
ORs a mask in, `clear_io_bits` ANDs with the 32-bit complement of the mask. -/

def U32_MOD : Nat := 2 ^ 32

/-- `set_io_bits` (source lines 77-83) as a pure function on the register
value: `v |= bits`, stored through `iowrite32`. -/
def set_io_bits (v bits : Nat) : Nat := (v ||| bits) % U32_MOD

/-- `clear_io_bits` (source lines 85-91): `v &= ~bits` with `~` the 32-bit
complement. -/
def clear_io_bits (v bits : Nat) : Nat :=
  (v &&& ((U32_MOD - 1) ^^^ (bits % U32_MOD))) % U32_MOD

/-- Bound accessor pair member: the driver stores function pointers
`davinci_spi_rx_buf_u8` / `davinci_spi_rx_buf_u16` (and the tx analogues,
source lines 41-75); the embedding records which one is bound. -/
inductive WordAccessor where
  | u8
  | u16
deriving DecidableEq, Repr

/-- The slice of `struct davinci_spi` state that `davinci_spi_setup_transfer`
and `davinci_spi_calc_clk_div` read and write: the bound accessor pair, the
per-chip-select `bytes_per_word` records, the per-chip-select `SPIFMTn`
format registers (`fmt cs` is the register `SPIFMT0 + 4*cs` targeted by
`set_fmt_bits`/`clear_fmt_bits`, source lines 93-101), the recorded speed and
the recorded chip-select number. -/
structure CtrlState where
  get_rx : WordAccessor
  get_tx : WordAccessor
  bytes_per_word : Nat → Nat
  fmt : Nat → Nat
  speed : Nat
  cs_num : Nat

/-- `set_fmt_bits` (source lines 93-96) on the format-register map. -/
def set_fmt_bits (fmt : Nat → Nat) (bits cs_num : Nat) : Nat → Nat :=
  Function.update fmt cs_num (set_io_bits (fmt cs_num) bits)

/-- `clear_fmt_bits` (source lines 98-101) on the format-register map. -/
def clear_fmt_bits (fmt : Nat → Nat) (bits cs_num : Nat) : Nat → Nat :=
  Function.update fmt cs_num (clear_io_bits (fmt cs_num) bits)

/-! ### Clock divisor calculator (source lines 141-165) -/

/-- The prescale value `davinci_spi_calc_clk_div` computes (source lines
151-161).  `prescale` is a `u32`; `(clk_rate / hz) - 1` is 32-bit wrapping
subtraction, written here as `+ (2^32 - 1)` modulo `2^32`. -/
def davinci_spi_calc_prescale (clk_rate hz : Nat) : Nat :=
  let prescale := (clk_rate / hz + (U32_MOD - 1)) % U32_MOD
  let prescale := if 0xff < prescale then 0xff else prescale
  let prescale := if hz < clk_rate / (prescale + 1) then prescale + 1 else prescale
  if prescale < 2 then 2 else prescale

/-- `davinci_spi_calc_clk_div` (source lines 141-165): computes the prescale
from the clock rate and the recorded speed, then clears the `0x0000ff00`
field of the addressed format register and ORs `prescale << 8` in. -/
def davinci_spi_calc_clk_div (clk_rate : Nat) (st : CtrlState) : CtrlState :=
  let prescale := davinci_spi_calc_prescale clk_rate st.speed
  let fmt := clear_fmt_bits st.fmt 0x0000ff00 st.cs_num
  let fmt := set_fmt_bits fmt (prescale <<< 8) st.cs_num
  { st with fmt := fmt }

/-! ### Transfer setup (source lines 176-226) -/

/-- Modelled from the spec: `SPIFMT_CHARLEN_MASK` is defined in
`davinci_spi.h`, which is not part of the source tree.  The source masks the
written width with `0x1f` (line 220) and the spec calls the field the 5-bit
character-length field, so the mask is `0x1f`. -/
def SPIFMT_CHARLEN_MASK : Nat := 0x1f

/-- Common tail of `davinci_spi_setup_transfer` after accessor binding
(source lines 212-225): resolve `hz`, record speed and chip select, rewrite
the character-length field of the format register, and run the clock divisor
calculator. -/
def davinci_spi_setup_transfer_tail (bits_per_word hz max_speed_hz clk_rate cs : Nat)
    (st : CtrlState) : CtrlState × Int :=
  let hz := if hz = 0 then max_speed_hz else hz
  let st := { st with speed := hz, cs_num := cs }
  let st := { st with fmt := clear_fmt_bits st.fmt SPIFMT_CHARLEN_MASK cs }
  let st := { st with fmt := set_fmt_bits st.fmt (bits_per_word &&& 0x1f) cs }
  (davinci_spi_calc_clk_div clk_rate st, 0)

/-- `davinci_spi_setup_transfer` (source lines 176-226) after resolution of
`bits_per_word` and `hz` from the transfer/device (lines 188-195):
`bits_per_word` is the resolved word width, `hz` the requested rate (0
meaning "use `max_speed_hz`"), `clk_rate` the module clock rate, `cs` the
device's chip select.  Returns the mutated state and the C return value. -/
def davinci_spi_setup_transfer (bits_per_word hz max_speed_hz clk_rate cs : Nat)
    (st : CtrlState) : CtrlState × Int :=
  if bits_per_word ≤ 8 ∧ 2 ≤ bits_per_word then
    let st := { st with
      get_rx := WordAccessor.u8
      get_tx := WordAccessor.u8
      bytes_per_word := Function.update st.bytes_per_word cs 1 }
    davinci_spi_setup_transfer_tail bits_per_word hz max_speed_hz clk_rate cs st
  else if bits_per_word ≤ 16 ∧ 2 ≤ bits_per_word then
    let st := { st with
      get_rx := WordAccessor.u16
      get_tx := WordAccessor.u16
      bytes_per_word := Function.update st.bytes_per_word cs 2 }
    davinci_spi_setup_transfer_tail bits_per_word hz max_speed_hz clk_rate cs st
  else
    (st, -(EINVAL : Int))

/-! ### PIO transfer engine (source lines 548-682)

The engine busy-waits on hardware status reads; those reads are supplied by
an oracle indexed by the loop-iteration number.  The unbounded `while (1)`
loop is embedded with explicit fuel: result `none` means the loop has not
terminated within the fuel, mirroring the source's potential to spin
forever. -/

/-- Modelled from the spec: `SPIDAT1_CSHOLD_SHIFT` is defined in
`davinci_spi.h`, which is not part of the source tree; the chip-select-hold
bit of the 32-bit `SPIDAT1` command word sits in the top control byte, above
the chip-select-number field — bit 28 in the DaVinci data register layout. -/
def SPIDAT1_CSHOLD_SHIFT : Nat := 28

/-- Modelled from the spec: `SPIDAT1_CSNR_SHIFT` is defined in
`davinci_spi.h`, which is not part of the source tree; the chip-select-number
field of the `SPIDAT1` command word sits directly above the 16-bit data
field — bit 16 in the DaVinci data register layout. -/
def SPIDAT1_CSNR_SHIFT : Nat := 16

/-- Hardware reads the PIO loops busy-wait on, indexed by loop iteration:
`fifoFull n` is the `SPIBUF_TXFULL_MASK` bit of the `SPIBUF` read made in
iteration `n` (source line 603), and `rxWord n` is the `SPIBUF` value read
after the receive-empty spin of iteration `n` terminates (source line 616). -/
structure PioOracle where
  fifoFull : Nat → Bool
  rxWord : Nat → Nat

/-- Mutable state of the PIO transmit loop (source lines 597-621): the
`davinci_spi->tx` cursor (index into the word list), the `data1_reg_val`
command word, the remaining `count` (a C `int`), the `davinci_spi->rx`
cursor, the received words stored through `get_rx`, the values written to
`SPIDAT1`, and the iteration number (for oracle indexing). -/
structure PioTxState where
  txIdx : Nat
  data1 : Nat
  count : Int
  rxIdx : Nat
  rxOut : List Nat
  writes : List Nat
  iter : Nat
deriving DecidableEq, Repr

/-- One iteration of the full-duplex PIO loop body (source lines 597-620):
fetch the next transmit word through `get_tx` (which advances the tx
cursor), merge its low 16 bits into `data1_reg_val`, read `SPIBUF`; only if
the transmit-FIFO-full bit is clear, write the command word to `SPIDAT1` and
decrement `count`; spin until receive data is available, then, if a receive
buffer was supplied, store the received word through `get_rx`. -/
def pio_tx_iter (tx : List Nat) (rx_present : Bool) (o : PioOracle)
    (st : PioTxState) : PioTxState :=
  let tx_data := tx.getD st.txIdx 0
  let txIdx := st.txIdx + 1
  let data1 := (st.data1 &&& (0xFFFF0000 : Nat)) ||| (tx_data &&& 0xFFFF)
  let full := o.fifoFull st.iter
  let writes := if full then st.writes else st.writes ++ [data1]
  let count := if full then st.count else st.count - 1
  let rxOut := if rx_present then st.rxOut ++ [o.rxWord st.iter] else st.rxOut
  let rxIdx := if rx_present then st.rxIdx + 1 else st.rxIdx
  ⟨txIdx, data1, count, rxIdx, rxOut, writes, st.iter + 1⟩

/-- The full-duplex PIO `while (1)` loop (source lines 597-621): run the
body, then exit when `count <= 0`.  Fuel bounds the number of iterations;
`none` means the loop is still running when the fuel runs out. -/
def pio_tx_loop (tx : List Nat) (rx_present : Bool) (o : PioOracle) :
    Nat → PioTxState → Option PioTxState
  | 0, _ => none
  | fuel + 1, st =>
    let st := pio_tx_iter tx rx_present o st
    if st.count ≤ 0 then some st else pio_tx_loop tx rx_present o fuel st

/-- One iteration of the receive-only polling loop body (source lines
624-643): rewrite the (unchanged) command word whenever the FIFO is not
full, spin until data is ready, capture the received word through `get_rx`,
decrement `count`. -/
def pio_rx_poll_iter (o : PioOracle) (st : PioTxState) : PioTxState :=
  let writes := if o.fifoFull st.iter then st.writes else st.writes ++ [st.data1]
  let rxOut := st.rxOut ++ [o.rxWord st.iter]
  ⟨st.txIdx, st.data1, st.count - 1, st.rxIdx + 1, rxOut, writes, st.iter + 1⟩

/-- The receive-only polling `while (1)` loop (source lines 624-643). -/
def pio_rx_poll_loop (o : PioOracle) : Nat → PioTxState → Option PioTxState
  | 0, _ => none
  | fuel + 1, st =>
    let st := pio_rx_poll_iter o st
    if st.count ≤ 0 then some st else pio_rx_poll_loop o fuel st

/-- The receive-only interrupt-mode path (source lines 644-662): for each of
the `davinci_spi->count` words, enable the interrupt sources, write the
command word, and spin on the interrupt-pending flag (data capture happens
in the interrupt handler, not here); afterwards write the sanitized command
word `data1_reg_val & 0x0ffcffff`. -/
def pio_rx_intr_run (wcount : Nat) (st : PioTxState) : PioTxState :=
  let writes := st.writes ++ List.replicate wcount st.data1
  let writes := writes ++ [st.data1 &&& 0x0ffcffff]
  { st with writes := writes }

/-- `davinci_spi_bufs_prep` (source lines 463-493): programs the pin-function
and loopback bits and returns 0 unconditionally. -/
def davinci_spi_bufs_prep : Int := 0

/-- Inputs of one `davinci_spi_bufs_pio` call: presence of the transmit and
receive buffers, the transmit buffer as a list of words (as fetched by the
bound `get_tx` accessor), the transfer byte length `t->len`, the negotiated
`bytes_per_word` for the addressed chip select, the chip-select number and
the platform `cs_hold` bit, the poll-mode flag, the hardware oracle, the
`SPIFLG` snapshot read after the loop (line 669), the controller version,
and the loop fuel. -/
structure PioEnv where
  tx_present : Bool
  rx_present : Bool
  tx : List Nat
  len : Nat
  conv : Nat
  cs : Nat
  cs_hold : Nat
  poll_mode : Bool
  o : PioOracle
  flg : SpiFlg
  version : Nat
  fuel : Nat

/-- Observable outcome of one `davinci_spi_bufs_pio` call: the C return
value, the final `davinci_spi->in_use` flag, whether `complete(&done)` was
signalled, the final `davinci_spi->count` field, and the final loop state. -/
structure PioResult where
  ret : Int
  in_use : Bool
  completed : Bool
  dcount : Nat
  st : PioTxState
deriving DecidableEq, Repr

/-- `davinci_spi_bufs_pio` (source lines 548-682).  `none` means the call
never returns (a busy-wait loop still spinning when the fuel runs out).
`davinci_spi->count` is set to `t->len / conv` (line 565); `bufs_prep`
cannot fail (its guard at lines 568-569 is therefore unreachable);
`in_use` is set with the completion reset (lines 571-572); the command word
starts from the `cs_hold` bit and the 8-bit-complemented chip-select mask
(lines 582-587); one of the three loop paths runs (lines 594-663); the
status snapshot is classified (lines 669-673); on success the word count is
scaled back to bytes (line 676); the shared exit path clears `in_use`,
signals completion and returns the error or `t->len` (lines 677-681). -/
def davinci_spi_bufs_pio (e : PioEnv) : Option PioResult :=
  let wcount := e.len / e.conv
  if davinci_spi_bufs_prep ≠ 0 then
    some ⟨davinci_spi_bufs_prep, false, false, wcount, ⟨0, 0, 0, 0, [], [], 0⟩⟩
  else
    let data1 := (e.cs_hold <<< SPIDAT1_CSHOLD_SHIFT) % U32_MOD
    let tmp := 0xFF ^^^ ((1 <<< e.cs) % 0x100)
    let data1 := data1 ||| (tmp <<< SPIDAT1_CSNR_SHIFT)
    let st0 : PioTxState := ⟨0, data1, (wcount : Int), 0, [], [], 0⟩
    let loopRes : Option PioTxState :=
      if e.tx_present then
        pio_tx_loop e.tx e.rx_present e.o e.fuel st0
      else if e.poll_mode then
        pio_rx_poll_loop e.o e.fuel st0
      else
        some (pio_rx_intr_run wcount st0)
    match loopRes with
    | none => none
    | some st =>
      let ret := davinci_spi_check_error e.version e.flg
      let dcount := if ret = 0 then wcount * e.conv else wcount
      some ⟨if ret ≠ 0 then ret else (e.len : Int), false, true, dcount, st⟩

/-! ### DMA transfer engine (source lines 688-863) -/

/-- Inputs of one `davinci_spi_bufs_dma` call: buffer presence, negotiated
`bytes_per_word`, transfer byte length, whether each of the three
`dma_map_single` calls succeeds (`tx_map_ok` for a present transmit buffer,
`tmp_map_ok` for the scratch buffer used when none is present, `rx_map_ok`
for the receive buffer), the post-transfer `SPIFLG` snapshot, and the
controller version. -/
structure DmaEnv where
  tx_present : Bool
  rx_present : Bool
  conv : Nat
  len : Nat
  tx_map_ok : Bool
  tmp_map_ok : Bool
  rx_map_ok : Bool
  flg : SpiFlg
  version : Nat

/-- Observable outcome of one `davinci_spi_bufs_dma` call: the C return
value, the final `in_use` flag, whether `complete(&done)` was signalled, and
whether the call reached the point that set `in_use` (source line 737). -/
structure DmaResult where
  ret : Int
  in_use : Bool
  completed : Bool
  started : Bool
deriving DecidableEq, Repr

/-- `davinci_spi_bufs_dma` (source lines 688-863).  The element-width chain
(lines 723-730) rejects `conv * 8 > 32` with `-EINVAL` before `in_use` is
set, as does the (unreachable) `bufs_prep` guard (lines 732-734); after
`in_use` is set (line 737), the transmit-side mapping failure (lines
770-775 / 782-787), the receive-side mapping failure (lines 804-812) and the
error classification (lines 852-854) all leave through the shared `out:`
label, which clears `in_use` and signals completion (lines 858-860); the
return value is the error or `t->len` (line 862). -/
def davinci_spi_bufs_dma (e : DmaEnv) : DmaResult :=
  let word_len := e.conv * 8
  if ¬ (word_len ≤ 8 ∨ word_len ≤ 16 ∨ word_len ≤ 32) then
    ⟨-(EINVAL : Int), false, false, false⟩
  else if davinci_spi_bufs_prep ≠ 0 then
    ⟨-(EINVAL : Int), false, false, false⟩
  else
    let txMapFail := if e.tx_present then ¬ e.tx_map_ok else ¬ e.tmp_map_ok
    if txMapFail then
      ⟨-(ENOMEM : Int), false, true, true⟩
    else if e.rx_present ∧ ¬ e.rx_map_ok then
      ⟨-(ENOMEM : Int), false, true, true⟩
    else
      let ret := davinci_spi_check_error e.version e.flg
      ⟨if ret ≠ 0 then ret else (e.len : Int), false, true, true⟩

/-! ### DMA channel allocation (source lines 274-307) -/

/-- The DMA channel handles of one `struct davinci_spi_dma` channel pair;
`-1` is the unallocated sentinel (source lines 300, 1074, 1077). -/
structure DmaChannels where
  dma_rx_channel : Int
  dma_tx_channel : Int
deriving DecidableEq, Repr

/-- Results of the two `edma_alloc_channel` calls made by
`davinci_spi_request_dma`: a negative value is an allocation failure, a
non-negative value is the allocated channel number. -/
structure DmaAllocEnv where
  rx_alloc : Int
  tx_alloc : Int
deriving DecidableEq, Repr

/-- Observable outcome of `davinci_spi_request_dma`: the C return value, the
final channel-pair handles, and the channel numbers passed to
`edma_free_channel`, in order. -/
structure DmaAllocResult where
  ret : Int
  chans : DmaChannels
  freed : List Int
deriving DecidableEq, Repr

/-- `davinci_spi_request_dma` (source lines 274-307): allocate the RX
channel (failure: return `-EAGAIN` with nothing changed), record its handle,
then allocate the TX channel (failure: free the RX channel, reset its handle
to `-1`, return `-EAGAIN`), record its handle and return 0. -/
def davinci_spi_request_dma (e : DmaAllocEnv) (c : DmaChannels) : DmaAllocResult :=
  if e.rx_alloc < 0 then
    ⟨-(EAGAIN : Int), c, []⟩
  else
    let c := { c with dma_rx_channel := e.rx_alloc }
    if e.tx_alloc < 0 then
      ⟨-(EAGAIN : Int), { c with dma_rx_channel := -1 }, [e.rx_alloc]⟩
    else
      ⟨0, { c with dma_tx_channel := e.tx_alloc }, []⟩

/-! ### Concrete fixtures used by the theorems below -/

/-- Oracle whose transmit FIFO reports full exactly on loop iteration 0. -/
def fullOnFirst : PioOracle := ⟨fun i => i = 0, fun _ => 0⟩

/-- Oracle whose transmit FIFO never reports full and whose receive data is
always 0. -/
def neverFull : PioOracle := ⟨fun _ => false, fun _ => 0⟩

/-- Loop state at entry of the full-duplex loop for chip select 0 with
`cs_hold = 0` and a 2-word transfer: `data1_reg_val = 0xFE << 16`. -/
def txState0 : PioTxState := ⟨0, 0xFE0000, 2, 0, [], [], 0⟩

/-- Full-duplex PIO call: `tx_buf = [0x12, 0x34]`, `len = 2`, one byte per
word, chip select 0, FIFO full on the first loop iteration only. -/
def envFifoFull : PioEnv :=
  ⟨true, true, [0x12, 0x34], 2, 1, 0, 0, false, fullOnFirst, flgNone, 1, 5⟩

/-- Full-duplex PIO call with `len = 1` byte at 2 bytes per word (`t->len`
not a multiple of `bytes_per_word`, and smaller than it). -/
def envLen1Conv2 : PioEnv :=
  ⟨true, false, [0xAB], 1, 2, 0, 0, false, neverFull, flgNone, 1, 3⟩

/-- Full-duplex PIO call with `len = 3` bytes at 2 bytes per word. -/
def envLen3Conv2 : PioEnv :=
  ⟨true, false, [5, 6], 3, 2, 0, 0, false, neverFull, flgNone, 1, 4⟩

/-- A minimal clean full-duplex PIO call: one byte, no errors. -/
def envClean : PioEnv :=
  ⟨true, false, [1], 1, 1, 0, 0, false, neverFull, flgNone, 1, 2⟩

/-- The result `davinci_spi_bufs_pio envClean` evaluates to. -/
def resClean : PioResult := ⟨1, false, true, 1, ⟨1, 0xFE0001, 0, 0, [], [0xFE0001], 1⟩⟩

/-- A controller state with all format registers zero, recorded speed 100 Hz
and chip select 0. -/
def ctrl0 : CtrlState := ⟨.u8, .u8, fun _ => 0, fun _ => 0, 100, 0⟩

/-! ## Theorems -/

/-- C1: In the PIO full-duplex path, on a loop iteration in which the
transmit-FIFO-full flag is set, the command word is indeed not written and
the remaining count is indeed not decremented — but `get_tx` has already
advanced the transmit cursor before the FIFO check (source line 598 precedes
line 604), so the fetched word is dropped, the next iteration fetches the
following word, and the count is later filled by a fetch past the end of the
buffer.  Concretely, for `tx_buf = [0x12, 0x34]` with the FIFO full on the
first iteration only: after that iteration nothing was written, `count` is
still 2 and the cursor is already at 1; the words the whole call writes out
are `0x34` and the out-of-range fetch `0`, and `0x12` is never transmitted —
refuting "the same transmit word is retried on the next iteration" and "no
transmit word is skipped". -/
theorem pio_fifo_full_drops_word :
    (pio_tx_iter [0x12, 0x34] true fullOnFirst txState0).writes = [] ∧
    (pio_tx_iter [0x12, 0x34] true fullOnFirst txState0).count = 2 ∧
    (pio_tx_iter [0x12, 0x34] true fullOnFirst txState0).txIdx = 1 ∧
    ((davinci_spi_bufs_pio envFifoFull).map
        fun r => r.st.writes.map fun w => w % 0x10000) = some [0x34, 0] ∧
    (0x12 : Nat) ∉ [0x34, 0] := by
  refine ⟨by decide, by decide, by decide, by decide, by decide⟩

/-- C2: for the in-range request `hz = 100` with `ref_clock = 1000000`
(`0 < hz ≤ ref_clock / 2`), `davinci_spi_calc_clk_div` computes prescale
256: the clamp to `0xff` happens before the effective-rate correction, so
the increment at source line 156 pushes the value past the documented
ceiling of 255.  The result neither satisfies
`ref_clock / (prescale + 1) ≤ hz` nor equals the floor 2 nor the ceiling
255, refuting the claim at this input. -/
theorem calc_prescale_escapes_clamp :
    davinci_spi_calc_prescale 1000000 100 = 256 ∧
    0 < (100 : Nat) ∧ (100 : Nat) ≤ 1000000 / 2 ∧
    ¬ (1000000 / (256 + 1) ≤ (100 : Nat)) ∧
    (256 : Nat) ≠ 2 ∧ (256 : Nat) ≠ 255 := by
  refine ⟨by decide, by decide, by decide, by decide, by decide, by decide⟩

/-- C7: at the same input (`ref_clock = 1000000`, recorded speed 100), the
prescale value 256 is shifted into the format register as `256 << 8 =
0x10000`, setting bit 16 — a bit outside the 8-bit prescale field (bits
8-15) that was clear before the call.  The write therefore does not leave
every bit outside the prescale field unchanged. -/
theorem calc_clk_div_touches_bit16 :
    ((davinci_spi_calc_clk_div 1000000 ctrl0).fmt 0) >>> 16 % 2 = 1 ∧
    (ctrl0.fmt 0) >>> 16 % 2 = 0 := by
  refine ⟨by decide, by decide⟩

/-- C4 counterexample: for a controller whose version is `SPI_VERSION_2`
(not greater), a status snapshot with only the data-length-error flag set is
classified as success (return 0), not as the outcome of the first matching
flag in the claimed priority order (which would be the data-length-error
branch): the branches after bit error are guarded by
`version > SPI_VERSION_2` (source line 513). -/
theorem check_class_ignores_dlen_at_v2 :
    davinci_spi_check_class SPI_VERSION_2 flgDlenOnly = CheckOutcome.ok ∧
    specPriorityClass flgDlenOnly = CheckOutcome.dlenErr ∧
    davinci_spi_check_error SPI_VERSION_2 flgDlenOnly = 0 := by
  refine ⟨by decide, by decide, by decide⟩

/-- C4 amended: for every controller with version greater than
`SPI_VERSION_2`, `davinci_spi_check_error` classifies the status snapshot by
the first matching flag in the fixed priority order timeout,
desynchronization, bit error, data-length error, parity error, receive
overrun, stale transmit interrupt, buffer-init-active; and for every version
a snapshot with the bit-error flag set (and the higher-priority timeout and
desynchronization flags clear) is classified as bit error, in particular
when the receive-overrun flag is also set. -/
theorem check_class_priority_above_v2 :
    (∀ (v : Nat) (s : SpiFlg), SPI_VERSION_2 < v →
       davinci_spi_check_class v s = specPriorityClass s) ∧
    (∀ (v : Nat) (s : SpiFlg),
       s.biterr = true → s.timeout = false → s.desync = false →
       davinci_spi_check_class v s = CheckOutcome.biterr) := by
  constructor
  · intro v s hv
    simp [davinci_spi_check_class, specPriorityClass, hv]
  · intro v s hb ht hd
    simp [davinci_spi_check_class, hb, ht, hd]

/-- C4 witness: the amended theorem applied at version 3 with a
receive-overrun-only snapshot, and at version 2 with a snapshot carrying
both the bit-error and receive-overrun flags. -/
theorem check_class_priority_above_v2_witness :
    davinci_spi_check_class 3 flgOvrrunOnly = specPriorityClass flgOvrrunOnly ∧
    davinci_spi_check_class 2 flgBiterrOvrrun = CheckOutcome.biterr :=
  ⟨check_class_priority_above_v2.1 3 flgOvrrunOnly (by decide),
   check_class_priority_above_v2.2 2 flgBiterrOvrrun rfl rfl rfl⟩

/-- C6 counterexample: two different status snapshots, one with exactly the
desynchronization flag set and one with exactly the bit-error flag set, are
mapped to the same outcome value `-EIO` by `davinci_spi_check_error` — the
hardware-flagged conditions are not reported as distinct outcome codes. -/
theorem error_codes_collapse :
    flgDesyncOnly ≠ flgBiterrOnly ∧
    flgDesyncOnly.desync = true ∧ flgBiterrOnly.biterr = true ∧
    davinci_spi_check_error (SPI_VERSION_2 + 1) flgDesyncOnly = -(Eio : Int) ∧
    davinci_spi_check_error (SPI_VERSION_2 + 1) flgBiterrOnly = -(Eio : Int) := by
  refine ⟨by decide, rfl, rfl, by decide, by decide⟩

/-- C6 amended: for every controller version greater than `SPI_VERSION_2`,
the classifier distinguishes the conditions internally (the eight
single-flag snapshots reach pairwise distinct diagnostic branches), but the
outcome codes returned to the caller collapse: desynchronization, bit
error, data-length error, parity error, receive overrun and stale transmit
interrupt all return `-EIO`; only buffer-init-active (`-EBUSY`) and timeout
(`-ETIMEDOUT`) are distinct from `-EIO` and from each other. -/
theorem error_codes_eio_and_ebusy :
    ∀ v : Nat, SPI_VERSION_2 < v →
      davinci_spi_check_error v flgDesyncOnly = -(Eio : Int) ∧
      davinci_spi_check_error v flgBiterrOnly = -(Eio : Int) ∧
      davinci_spi_check_error v flgDlenOnly = -(Eio : Int) ∧
      davinci_spi_check_error v flgParerrOnly = -(Eio : Int) ∧
      davinci_spi_check_error v flgOvrrunOnly = -(Eio : Int) ∧
      davinci_spi_check_error v flgTxIntrOnly = -(Eio : Int) ∧
      davinci_spi_check_error v flgBufInitOnly = -(EBUSY : Int) ∧
      davinci_spi_check_error v flgTimeoutOnly = -(ETIMEDOUT : Int) ∧
      [davinci_spi_check_class v flgTimeoutOnly,
       davinci_spi_check_class v flgDesyncOnly,
       davinci_spi_check_class v flgBiterrOnly,
       davinci_spi_check_class v flgDlenOnly,
       davinci_spi_check_class v flgParerrOnly,
       davinci_spi_check_class v flgOvrrunOnly,
       davinci_spi_check_class v flgTxIntrOnly,
       davinci_spi_check_class v flgBufInitOnly].Nodup ∧
      -(EBUSY : Int) ≠ -(Eio : Int) ∧
      -(ETIMEDOUT : Int) ≠ -(Eio : Int) ∧
      -(ETIMEDOUT : Int) ≠ -(EBUSY : Int) := by
  intro v hv
  simp only [davinci_spi_check_error, davinci_spi_check_class, checkOutcomeCode,
    flgTimeoutOnly, flgDesyncOnly, flgBiterrOnly, flgDlenOnly, flgParerrOnly,
    flgOvrrunOnly, flgTxIntrOnly, flgBufInitOnly, hv, if_true, if_false]
  simp [hv]
  decide

/-- C6 witness: the amended theorem applied at version 3; the
desynchronization-only snapshot returns `-EIO`. -/
theorem error_codes_eio_and_ebusy_witness :
    davinci_spi_check_error 3 flgDesyncOnly = -(Eio : Int) :=
  (error_codes_eio_and_ebusy 3 (by decide)).1

/-- C9: for every controller whose version is not greater than
`SPI_VERSION_2`, `davinci_spi_check_error` tests only the timeout,
desynchronization and bit-error flags: any status snapshot with those three
clear — whatever the data-length-error, parity, receive-overrun,
transmit-interrupt and buffer-init-active flags — is classified as success
(return 0). -/
theorem check_error_version_le2 :
    ∀ (v : Nat) (s : SpiFlg), v ≤ SPI_VERSION_2 →
      s.timeout = false → s.desync = false → s.biterr = false →
      davinci_spi_check_error v s = 0 := by
  intro v s hv ht hd hb
  have hnv : ¬ SPI_VERSION_2 < v := Nat.not_lt.mpr hv
  simp [davinci_spi_check_error, davinci_spi_check_class, checkOutcomeCode,
    ht, hd, hb, hnv]

/-- C9 witness: version 2 with all five version-gated flags set is still
classified as success. -/
theorem check_error_version_le2_witness :
    davinci_spi_check_error 2 ⟨false, false, false, true, true, true, true, true⟩ = 0 :=
  check_error_version_le2 2 ⟨false, false, false, true, true, true, true, true⟩
    (by decide) rfl rfl rfl

/-- C3: for every resolved bits-per-word in [2,8],
`davinci_spi_setup_transfer` binds the 1-byte accessor pair and records
`bytes_per_word = 1`; for every value in [9,16] it binds the 2-byte pair and
records `bytes_per_word = 2`; for every value outside [2,16] it returns
`-EINVAL` with the controller state — registers included — unchanged. -/
theorem setup_transfer_word_width :
    ∀ (b hz mx clk cs : Nat) (st : CtrlState),
      ((2 ≤ b ∧ b ≤ 8) →
        (davinci_spi_setup_transfer b hz mx clk cs st).2 = 0 ∧
        (davinci_spi_setup_transfer b hz mx clk cs st).1.get_rx = WordAccessor.u8 ∧
        (davinci_spi_setup_transfer b hz mx clk cs st).1.get_tx = WordAccessor.u8 ∧
        (davinci_spi_setup_transfer b hz mx clk cs st).1.bytes_per_word cs = 1) ∧
      ((9 ≤ b ∧ b ≤ 16) →
        (davinci_spi_setup_transfer b hz mx clk cs st).2 = 0 ∧
        (davinci_spi_setup_transfer b hz mx clk cs st).1.get_rx = WordAccessor.u16 ∧
        (davinci_spi_setup_transfer b hz mx clk cs st).1.get_tx = WordAccessor.u16 ∧
        (davinci_spi_setup_transfer b hz mx clk cs st).1.bytes_per_word cs = 2) ∧
      ((b < 2 ∨ 16 < b) →
        davinci_spi_setup_transfer b hz mx clk cs st = (st, -(EINVAL : Int))) := by
  intro b hz mx clk cs st
  refine ⟨?_, ?_, ?_⟩
  · rintro ⟨h2, h8⟩
    simp [davinci_spi_setup_transfer, davinci_spi_setup_transfer_tail,
      davinci_spi_calc_clk_div, h2, h8]
  · rintro ⟨h9, h16⟩
    have hn8 : ¬ (b ≤ 8 ∧ 2 ≤ b) := by omega
    have hb8 : ¬ b ≤ 8 := by omega
    have h2 : 2 ≤ b := by omega
    simp [davinci_spi_setup_transfer, davinci_spi_setup_transfer_tail,
      davinci_spi_calc_clk_div, hn8, hb8, h16, h2]
  · intro hout
    have hn8 : ¬ (b ≤ 8 ∧ 2 ≤ b) := by omega
    have hn16 : ¬ (b ≤ 16 ∧ 2 ≤ b) := by omega
    simp [davinci_spi_setup_transfer, hn8, hn16]

/-- C3 witness: the theorem applied at widths 8 (1-byte pair), 12 (2-byte
pair) and 17 (rejected with no register write). -/
theorem setup_transfer_word_width_witness :
    ((davinci_spi_setup_transfer 8 0 1000000 150000000 0 ctrl0).2 = 0 ∧
     (davinci_spi_setup_transfer 8 0 1000000 150000000 0 ctrl0).1.get_rx = WordAccessor.u8 ∧
     (davinci_spi_setup_transfer 8 0 1000000 150000000 0 ctrl0).1.get_tx = WordAccessor.u8 ∧
     (davinci_spi_setup_transfer 8 0 1000000 150000000 0 ctrl0).1.bytes_per_word 0 = 1) ∧
    ((davinci_spi_setup_transfer 12 0 1000000 150000000 0 ctrl0).2 = 0 ∧
     (davinci_spi_setup_transfer 12 0 1000000 150000000 0 ctrl0).1.get_rx = WordAccessor.u16 ∧
     (davinci_spi_setup_transfer 12 0 1000000 150000000 0 ctrl0).1.get_tx = WordAccessor.u16 ∧
     (davinci_spi_setup_transfer 12 0 1000000 150000000 0 ctrl0).1.bytes_per_word 0 = 2) ∧
    (davinci_spi_setup_transfer 17 0 1000000 150000000 0 ctrl0 = (ctrl0, -(EINVAL : Int))) :=
  ⟨(setup_transfer_word_width 8 0 1000000 150000000 0 ctrl0).1 (by omega),
   (setup_transfer_word_width 12 0 1000000 150000000 0 ctrl0).2.1 (by omega),
   (setup_transfer_word_width 17 0 1000000 150000000 0 ctrl0).2.2 (by omega)⟩

/-- C5: every returning execution of a transfer engine that set the
in-flight flag clears it and signals the completion before returning.  For
the PIO engine, every call that returns (any loop outcome, any status
snapshot, success or classified hardware error) ends with `in_use = false`
and the completion signalled.  For the DMA engine, every call ends with
`in_use = false`, and the completion is signalled exactly when the call
reached the point that set the in-flight flag — covering success, the
hardware-error classification and both DMA buffer-mapping failure paths. -/
theorem in_flight_always_released :
    (∀ (e : PioEnv) (r : PioResult),
       davinci_spi_bufs_pio e = some r → r.in_use = false ∧ r.completed = true) ∧
    (∀ e : DmaEnv,
       (davinci_spi_bufs_dma e).in_use = false ∧
       (davinci_spi_bufs_dma e).completed = (davinci_spi_bufs_dma e).started) := by
  constructor
  · intro e r h
    unfold davinci_spi_bufs_pio at h
    simp only [davinci_spi_bufs_prep, ne_eq, not_true_eq_false, if_false,
      reduceIte] at h
    split at h
    · exact absurd h (by simp)
    · cases h
      exact ⟨rfl, rfl⟩
  · intro e
    dsimp only [davinci_spi_bufs_dma]
    repeat' split
    all_goals exact ⟨rfl, rfl⟩

/-- C5 witness: the PIO half of the theorem applied to a concrete clean
one-byte transfer. -/
theorem in_flight_always_released_witness :
    resClean.in_use = false ∧ resClean.completed = true :=
  in_flight_always_released.1 envClean resClean (by decide)

/-- C8: starting from an unallocated channel pair, if RX allocation
succeeds and TX allocation fails, `davinci_spi_request_dma` frees the
RX channel it had allocated, resets its handle to the `-1` sentinel and
returns `-EAGAIN`; and after any return the pair is either fully allocated
or fully unallocated. -/
theorem request_dma_unwinds_half_alloc :
    ∀ (e : DmaAllocEnv) (c : DmaChannels),
      c.dma_rx_channel = -1 → c.dma_tx_channel = -1 →
      ((0 ≤ e.rx_alloc → e.tx_alloc < 0 →
          davinci_spi_request_dma e c =
            ⟨-(EAGAIN : Int), ⟨-1, -1⟩, [e.rx_alloc]⟩) ∧
       ((0 ≤ (davinci_spi_request_dma e c).chans.dma_rx_channel ∧
         0 ≤ (davinci_spi_request_dma e c).chans.dma_tx_channel) ∨
        (davinci_spi_request_dma e c).chans = ⟨-1, -1⟩)) := by
  intro e c h1 h2
  obtain ⟨crx, ctx⟩ := c
  simp only [DmaChannels.mk.injEq] at *
  subst h1; subst h2
  by_cases hrx : e.rx_alloc < 0 <;> by_cases htx : e.tx_alloc < 0 <;>
    simp [davinci_spi_request_dma, hrx, htx]
  all_goals omega

/-- C8 witness: the theorem applied to RX allocation returning channel 7 and
TX allocation failing. -/
theorem request_dma_unwinds_half_alloc_witness :
    davinci_spi_request_dma ⟨7, -3⟩ ⟨-1, -1⟩ =
      ⟨-(EAGAIN : Int), ⟨-1, -1⟩, [7]⟩ :=
  (request_dma_unwinds_half_alloc ⟨7, -3⟩ ⟨-1, -1⟩ rfl rfl).1 (by decide) (by decide)

/-- Helper: with an oracle whose FIFO is never full, the full-duplex PIO
loop terminates within any fuel at least the remaining count and performs
exactly that many writes. -/
theorem pio_tx_loop_never_full (tx : List Nat) (rxp : Bool) (o : PioOracle)
    (hf : ∀ i, o.fifoFull i = false) :
    ∀ (fuel : Nat) (st : PioTxState), 0 < st.count → st.count ≤ (fuel : Int) →
      ∃ st', pio_tx_loop tx rxp o fuel st = some st' ∧
        st'.writes.length = st.writes.length + st.count.toNat := by
  intro fuel
  induction fuel with
  | zero => intro st h1 h2; omega
  | succ n ih =>
    intro st h1 h2
    by_cases hstop : (pio_tx_iter tx rxp o st).count ≤ 0
    · refine ⟨pio_tx_iter tx rxp o st, ?_, ?_⟩
      · simp [pio_tx_loop, hstop]
      · have hc : st.count = 1 := by
          simp [pio_tx_iter, hf] at hstop; omega
        simp [pio_tx_iter, hf, hc]
    · have hcount : (pio_tx_iter tx rxp o st).count = st.count - 1 := by
        simp [pio_tx_iter, hf]
      have hwr : (pio_tx_iter tx rxp o st).writes.length =
          st.writes.length + 1 := by
        simp [pio_tx_iter, hf]
      obtain ⟨st', hrun, hlen⟩ := ih (pio_tx_iter tx rxp o st)
        (by omega) (by omega)
      refine ⟨st', ?_, ?_⟩
      · simp [pio_tx_loop, hstop, hrun]
      · rw [hlen, hwr, hcount]; omega

/-- C10 counterexample: a full-duplex PIO transfer of `t->len = 1` byte at
`bytes_per_word = 2` (length not a multiple of the word size, claim predicts
`floor(1/2) = 0` words transferred): the do-while-shaped loop still writes
one word, and the call returns `t->len = 1`. -/
theorem pio_short_transfer_extra_word :
    ((davinci_spi_bufs_pio envLen1Conv2).map
        fun r => (r.ret, r.st.writes.length)) = some (1, 1) ∧
    (1 : Nat) / 2 = 0 ∧ (1 : Nat) % 2 ≠ 0 := by
  refine ⟨by decide, by decide, by decide⟩

/-- C10 amended: for every full-duplex PIO transfer whose byte length is at
least `bytes_per_word` but not a multiple of it (and whose FIFO never
blocks, with a clean status snapshot), the engine transfers exactly
`floor(t->len / bytes_per_word)` words, scales the internal count back to
`floor(t->len / bytes_per_word) * bytes_per_word` bytes, yet returns the
full requested byte length `t->len` — the trailing remainder bytes are
neither sent nor received but are still counted in the returned value.
(When `t->len < bytes_per_word` the do-while loop instead transfers one
word, as the counterexample shows.) -/
theorem pio_word_count_and_return :
    ∀ e : PioEnv, e.tx_present = true → 0 < e.conv → e.conv ≤ e.len →
      e.len % e.conv ≠ 0 →
      (∀ i, e.o.fifoFull i = false) →
      e.len / e.conv ≤ e.fuel →
      davinci_spi_check_error e.version e.flg = 0 →
      ∃ r, davinci_spi_bufs_pio e = some r ∧
        r.ret = (e.len : Int) ∧
        r.st.writes.length = e.len / e.conv ∧
        r.dcount = (e.len / e.conv) * e.conv := by
  intro e htx hc hlen _hrem hf hfuel herr
  have hw : 0 < e.len / e.conv := Nat.div_pos hlen hc
  obtain ⟨st', hrun, hlenw⟩ :=
    pio_tx_loop_never_full e.tx e.rx_present e.o hf e.fuel
      ⟨0, ((e.cs_hold <<< SPIDAT1_CSHOLD_SHIFT) % U32_MOD) |||
          ((0xFF ^^^ ((1 <<< e.cs) % 0x100)) <<< SPIDAT1_CSNR_SHIFT),
        ((e.len / e.conv : Nat) : Int), 0, [], [], 0⟩
      (by exact Int.natCast_pos.mpr hw) (by exact Nat.cast_le.mpr hfuel)
  refine ⟨⟨(e.len : Int), false, true, (e.len / e.conv) * e.conv, st'⟩, ?_, rfl, ?_, rfl⟩
  · unfold davinci_spi_bufs_pio
    simp only [davinci_spi_bufs_prep, ne_eq, not_true_eq_false, if_false, reduceIte,
      htx, if_true, hrun, herr]
  · show st'.writes.length = e.len / e.conv
    have h2 : st'.writes.length = 0 + (((e.len / e.conv : Nat) : Int)).toNat := hlenw
    omega

/-- C10 witness: the amended theorem applied to a 3-byte transfer at 2 bytes
per word: one word is transferred and the call returns 3. -/
theorem pio_word_count_and_return_witness :
    ∃ r, davinci_spi_bufs_pio envLen3Conv2 = some r ∧
      r.ret = (3 : Int) ∧ r.st.writes.length = 1 ∧ r.dcount = 2 :=
  pio_word_count_and_return envLen3Conv2 rfl (by decide) (by decide) (by decide)
    (fun _ => rfl) (by decide) (by decide)

end DavinciSpi
